import Mathlib

/-!
Shallow embedding of `python_heidelTime.py` (class `HeidelTime`), the
configuration-and-invocation wrapper around the HeidelTime standalone jar.

Modelling conventions:
* Filesystem paths are strings; `pathlib.Path("a") / "b"` is `pathJoin`,
  which reproduces the posix join semantics used by the source (an absolute
  right operand replaces the left operand entirely).
* The filesystem is an association list from path to contents; `exists`,
  temporary-file creation and `unlink(missing_ok=True)` act on it.
* The child process (`subprocess.check_output`) is an oracle
  `List String → ProcResult` giving exit code, stdout and stderr; stdout and
  stderr are modelled as already-decoded strings (byte-level text encoding is
  not modelled).
* Python exceptions are mapped to the error taxonomy the raise sites fall
  under: `ValueError` for a missing tool path and `FileNotFoundError`
  become `configError`; validation `ValueError`s become `validationError`;
  the `RuntimeError` wrapping a `CalledProcessError` becomes
  `executionError`.  Quote characters inside source messages and the
  rendering of the allowed-values lists are elided from the message texts.
* `datetime.strptime` with the two formats `%Y/%m/%d` and `%y/%m/%d` is
  modelled after CPython's `_strptime` regexes: `%Y` is exactly four digits,
  `%y` exactly two (year 00-68 maps to 2000-2068, 69-99 to 1969-1999),
  `%m` matches `1[0-2]|0[1-9]|[1-9]`, `%d` matches
  `3[01]|[12][0-9]|0[1-9]|[1-9]`, the separator is a literal `/`, the whole
  string must be consumed, and `datetime` construction validates the day
  against the month length (with leap years).
* `str.lower()` is `pyLower`, character-wise ASCII lowercasing (the source
  values are ASCII).
-/

namespace PyHeideltime

/-- A calendar date, the model of `datetime.date` / `datetime` as used here
(only year, month and day are ever consulted by the wrapper). -/
structure Date where
  year : Nat
  month : Nat
  day : Nat
deriving DecidableEq, Repr

/-- Error taxonomy of the wrapper (see module comment for the mapping from
Python exception classes at each raise site). -/
inductive HTError where
  | configError (msg : String)
  | validationError (msg : String)
  | executionError (msg : String)
deriving DecidableEq, Repr

/-- `AVAILABLE_LANGUAGES` from the source (15 entries). -/
def AVAILABLE_LANGUAGES : List String :=
  ["arabic", "chinese", "croatian", "dutch", "english", "englishcoll",
   "englishsci", "estonian", "french", "german", "italian", "portuguese",
   "russian", "spanish", "vietnamese"]

/-- `AVAILABLE_DOCUMENT_TYPES` from the source. -/
def AVAILABLE_DOCUMENT_TYPES : List String :=
  ["colloquial", "narratives", "news", "scientific"]

/-- `AVAILABLE_OUTPUT_TYPES` from the source. -/
def AVAILABLE_OUTPUT_TYPES : List String := ["timeml", "xmi"]

/-- The filesystem: an association list from path to file contents. -/
abbrev FS := List (String × String)

/-- `Path(p).exists()` over the modelled filesystem. -/
def fsExists (fs : FS) (p : String) : Bool := fs.any (fun e => e.1 == p)

/-- Creating a file with the given contents (`NamedTemporaryFile` write). -/
def fsWrite (fs : FS) (p contents : String) : FS := (p, contents) :: fs

/-- `Path(p).unlink(missing_ok=True)`: removes the path if present, no error
when absent. -/
def fsUnlink (fs : FS) (p : String) : FS := fs.filter (fun e => e.1 != p)

/-- Whether the first character list is an initial segment of the second,
written recursively so it evaluates by kernel reduction. -/
def charsStartWith : List Char → List Char → Bool
  | [], _ => true
  | _ :: _, [] => false
  | p :: ps, c :: cs => p == c && charsStartWith ps cs

/-- `s.startswith(pre)` over the character lists. -/
def strStartsWith (s pre : String) : Bool := charsStartWith pre.data s.data

/-- `s.endswith(suf)` over the character lists. -/
def strEndsWith (s suf : String) : Bool :=
  charsStartWith suf.data.reverse s.data.reverse

/-- `pathlib` posix `/` join: an absolute right operand replaces the left
operand; an empty right operand is dropped. -/
def pathJoin (a b : String) : String :=
  if strStartsWith b "/" then b
  else if b = "" then a
  else if strEndsWith a "/" then a ++ b
  else a ++ "/" ++ b

/-- `Path.absolute()` (then `.as_posix()`, identity on posix): resolve a
relative path against the current working directory. -/
def absolutize (cwd p : String) : String :=
  if strStartsWith p "/" then p else pathJoin cwd p

/-- `str.lower()` on the ASCII values used by the wrapper, written over the
character list so it evaluates by kernel reduction. -/
def pyLower (s : String) : String := String.mk (s.data.map Char.toLower)

/-- Numeric value of an ASCII digit character. -/
def digitVal (c : Char) : Nat := c.toNat - 48

/-- `%Y` per CPython `_strptime`: exactly four digits. -/
def parseYear4 : List Char → Option (Nat × List Char)
  | a :: b :: c :: d :: rest =>
    if a.isDigit && b.isDigit && c.isDigit && d.isDigit then
      some (1000 * digitVal a + 100 * digitVal b + 10 * digitVal c + digitVal d, rest)
    else none
  | _ => none

/-- `%y` per CPython `_strptime`: exactly two digits, 00-68 mapping to
2000-2068 and 69-99 to 1969-1999. -/
def parseYear2 : List Char → Option (Nat × List Char)
  | a :: b :: rest =>
    if a.isDigit && b.isDigit then
      let y := 10 * digitVal a + digitVal b
      some (if y ≤ 68 then 2000 + y else 1900 + y, rest)
    else none
  | _ => none

/-- `%m` per CPython `_strptime` regex alternation `1[0-2]|0[1-9]|[1-9]`,
tried in that order (the separator after the month is never a digit, so
ordered matching agrees with regex backtracking here). -/
def parseMonth : List Char → Option (Nat × List Char)
  | c1 :: c2 :: rest =>
    if c1 = '1' && ('0' ≤ c2 && c2 ≤ '2') then some (10 + digitVal c2, rest)
    else if c1 = '0' && ('1' ≤ c2 && c2 ≤ '9') then some (digitVal c2, rest)
    else if '1' ≤ c1 && c1 ≤ '9' then some (digitVal c1, c2 :: rest)
    else none
  | [c1] => if '1' ≤ c1 && c1 ≤ '9' then some (digitVal c1, []) else none
  | [] => none

/-- `%d` per CPython `_strptime` regex alternation
`3[01]|[12][0-9]|0[1-9]|[1-9]`, tried in that order. -/
def parseDay : List Char → Option (Nat × List Char)
  | c1 :: c2 :: rest =>
    if c1 = '3' && (c2 = '0' || c2 = '1') then some (30 + digitVal c2, rest)
    else if (c1 = '1' || c1 = '2') && c2.isDigit then
      some (10 * digitVal c1 + digitVal c2, rest)
    else if c1 = '0' && ('1' ≤ c2 && c2 ≤ '9') then some (digitVal c2, rest)
    else if '1' ≤ c1 && c1 ≤ '9' then some (digitVal c1, c2 :: rest)
    else none
  | [c1] => if '1' ≤ c1 && c1 ≤ '9' then some (digitVal c1, []) else none
  | [] => none

/-- Literal `/` in the format string. -/
def expectSlash : List Char → Option (List Char)
  | '/' :: rest => some rest
  | _ => none

/-- Gregorian leap year, as in `datetime`. -/
def isLeap (y : Nat) : Bool := (y % 4 == 0 && y % 100 != 0) || y % 400 == 0

/-- Length of a month, as validated by `datetime` construction. -/
def daysInMonth (y m : Nat) : Nat :=
  if m == 2 then (if isLeap y then 29 else 28)
  else if m == 4 || m == 6 || m == 9 || m == 11 then 30 else 31

/-- `datetime(year, month, day)` range validation (MINYEAR 1, MAXYEAR 9999). -/
def mkDate (y m d : Nat) : Option Date :=
  if 1 ≤ y && y ≤ 9999 && 1 ≤ m && m ≤ 12 && 1 ≤ d && d ≤ daysInMonth y m then
    some ⟨y, m, d⟩
  else none

/-- `datetime.strptime(s, "<year>/%m/%d")` for one of the two year
directives, requiring the whole string to be consumed. -/
def strptimeSlashDate (yearP : List Char → Option (Nat × List Char))
    (s : String) : Option Date :=
  match yearP s.data with
  | none => none
  | some (y, r1) =>
    match expectSlash r1 with
    | none => none
    | some r2 =>
      match parseMonth r2 with
      | none => none
      | some (m, r3) =>
        match expectSlash r3 with
        | none => none
        | some r4 =>
          match parseDay r4 with
          | none => none
          | some (d, r5) => if r5 = [] then mkDate y m d else none

/-- The two-format fallback shared by `__init__` and `set_time`: try
`%Y/%m/%d`, fall back to `%y/%m/%d`. -/
def tryParseDate (s : String) : Option Date :=
  match strptimeSlashDate parseYear4 s with
  | some d => some d
  | none => strptimeSlashDate parseYear2 s

/-- Left-pad the decimal rendering of `n` with zeros to width `w`. -/
def padNat (w n : Nat) : String :=
  let s := toString n
  if s.length ≥ w then s else String.mk (List.replicate (w - s.length) '0') ++ s

/-- `self.start_date.strftime("%Y-%m-%d")`. -/
def formatDCT (d : Date) : String :=
  padNat 4 d.year ++ "-" ++ padNat 2 d.month ++ "-" ++ padNat 2 d.day

/-- The configuration mapping as consumed by `__init__` via `.get` calls:
each recognised key is present (`some`) or absent (`none`).  This models the
dictionary case of `_loadconfig`, which returns the mapping unchanged. -/
structure ConfigMap where
  heideltime_path : Option String := none
  java_path : Option String := none
  start_date : Option String := none
  conf_heideltime : Option String := none
  doc_type : Option String := none
  lang : Option String := none
  output_type : Option String := none
  encoding : Option String := none
  verbosity : Option Bool := none
  interval_tagger : Option Bool := none
  locale : Option String := none
  pos_tagger : Option String := none
deriving DecidableEq, Repr

/-- The instance state of class `HeidelTime` after a successful `__init__`. -/
structure HeidelTime where
  heidel : String
  java : String
  start_date : Date
  conf_heideltime : String
  doc_type : String
  lang : String
  output_type : String
  encoding : String
  verbosity : Bool
  interval_tagger : Bool
  locale : Option String
  pos_tagger : String
deriving DecidableEq, Repr

/-- `set_time`: re-parse with the two-format fallback; on failure the raise
happens before any assignment, so the state is returned unchanged alongside
the error. -/
def set_time (ht : HeidelTime) (doc_time : String) : HeidelTime × Option HTError :=
  match tryParseDate doc_time with
  | some d => ({ ht with start_date := d }, none)
  | none =>
    (ht, some (.validationError "doc_time must be in format YYYY/MM/DD or YY/MM/DD"))

/-- `set_lang`: case-insensitive membership test against
`AVAILABLE_LANGUAGES`; on success the LOWERCASED value is stored. -/
def set_lang (ht : HeidelTime) (lang : String) : HeidelTime × Option HTError :=
  if AVAILABLE_LANGUAGES.contains (pyLower lang) then
    ({ ht with lang := (pyLower lang) }, none)
  else
    (ht, some (.validationError
      ("Languague: " ++ lang ++ " is not supported in heideltime" ++
       "Please chose one of the supported languagues")))

/-- `set_type`: case-insensitive membership test against
`AVAILABLE_DOCUMENT_TYPES`; on success the ORIGINAL-case value is stored. -/
def set_type (ht : HeidelTime) (type : String) : HeidelTime × Option HTError :=
  if AVAILABLE_DOCUMENT_TYPES.contains (pyLower type) then
    ({ ht with doc_type := type }, none)
  else
    (ht, some (.validationError
      ("Document type: " ++ type ++ " is not specified !" ++
       "Please select one of those documents type")))

/-- `out_type`: case-insensitive membership test against
`AVAILABLE_OUTPUT_TYPES`; on success the ORIGINAL-case value is stored. -/
def out_type (ht : HeidelTime) (o_type : String) : HeidelTime × Option HTError :=
  if AVAILABLE_OUTPUT_TYPES.contains (pyLower o_type) then
    ({ ht with output_type := o_type }, none)
  else
    (ht, some (.validationError
      ("output type: " ++ o_type ++ " is not specified !" ++
       "Please select one of those output type")))

/-- `set_encod`: unvalidated assignment. -/
def set_encod (ht : HeidelTime) (encod : String) : HeidelTime :=
  { ht with encoding := encod }

/-- `set_config(conf_path, abs)`: relative paths are joined (pathlib `/`)
onto the tool path, absolute mode stores `Path(conf_path)` as given. -/
def set_config (ht : HeidelTime) (conf_path : String) (abs : Bool) : HeidelTime :=
  if abs then { ht with conf_heideltime := conf_path }
  else { ht with conf_heideltime := pathJoin ht.heidel conf_path }

/-- `set_verbosity`. -/
def set_verbosity (ht : HeidelTime) (verbosity : Bool) : HeidelTime :=
  { ht with verbosity := verbosity }

/-- `set_interval_tagger`. -/
def set_interval_tagger (ht : HeidelTime) (interval_tagger : Bool) : HeidelTime :=
  { ht with interval_tagger := interval_tagger }

/-- `set_locale`. -/
def set_locale (ht : HeidelTime) (locale : String) : HeidelTime :=
  { ht with locale := some locale }

/-- `set_pos_tagger`. -/
def set_pos_tagger (ht : HeidelTime) (pos_tagger : String) : HeidelTime :=
  { ht with pos_tagger := pos_tagger }

/-- `__init__(config)` for the in-memory-mapping case, against an explicit
filesystem (for the `exists()` check) and an explicit `today`
(for `datetime.now().date()`).  Follows the source order: tool-path
presence, tool-path existence, runtime default, date parsing (an absent or
empty `start_date` string is falsy and defaults to today), settings-path
derivation, then validation through `set_type`, `set_lang`, `out_type` in
that order. -/
def init (cfg : ConfigMap) (fs : FS) (today : Date) : Except HTError HeidelTime :=
  match cfg.heideltime_path with
  | none => .error (.configError
      "Please specify the path to Heideltime.standalone.jar in the configuration")
  | some hp =>
    if fsExists fs hp = false then
      .error (.configError ("HeidelTime jar file is not found at " ++ hp))
    else
      let dateRes : Except HTError Date :=
        match cfg.start_date with
        | some s =>
          if s = "" then .ok today
          else match tryParseDate s with
            | some d => .ok d
            | none => .error (.validationError
                "start_date must be in format YYYY/MM/DD or YY/MM/DD")
        | none => .ok today
      match dateRes with
      | .error e => .error e
      | .ok sd =>
        let conf := match cfg.conf_heideltime with
          | none => pathJoin hp "config.props"
          | some c => c
        let dt := cfg.doc_type.getD "narratives"
        let lg := cfg.lang.getD "french"
        let ot := cfg.output_type.getD "TIMEML"
        let ht0 : HeidelTime :=
          { heidel := hp, java := cfg.java_path.getD "java", start_date := sd,
            conf_heideltime := conf, doc_type := dt, lang := lg,
            output_type := ot, encoding := cfg.encoding.getD "UTF-8",
            verbosity := cfg.verbosity.getD false,
            interval_tagger := cfg.interval_tagger.getD false,
            locale := cfg.locale, pos_tagger := cfg.pos_tagger.getD "no" }
        match set_type ht0 dt with
        | (_, some e) => .error e
        | (ht1, none) =>
          match set_lang ht1 lg with
          | (_, some e) => .error e
          | (ht2, none) =>
            match out_type ht2 ot with
            | (_, some e) => .error e
            | (ht3, none) => .ok ht3

/-- Outcome of one child-process run (`subprocess.check_output` with
`stderr=subprocess.PIPE`); stdout and stderr are the decoded streams. -/
structure ProcResult where
  exitCode : Int
  stdout : String
  stderr : String

/-- Fixed jar file name appended to the tool path in `parse`. -/
def jarName : String := "de.unihd.dbs.heideltime.standalone.jar"

/-- The conditionally appended tail of the command (`cmd.append` calls):
`-v` when verbosity is truthy, `-it` when interval tagging is truthy,
`-locale <value>` when the locale is a truthy (present, non-empty) string,
and `-pos <value>` when the secondary-tagger value is truthy (non-empty). -/
def optionalFlags (ht : HeidelTime) : List String :=
  (if ht.verbosity then ["-v"] else []) ++
  (if ht.interval_tagger then ["-it"] else []) ++
  (match ht.locale with
   | some l => if l = "" then [] else ["-locale", l]
   | none => []) ++
  (if ht.pos_tagger = "" then [] else ["-pos", ht.pos_tagger])

/-- The fixed head of the command list built in `parse`. -/
def baseCmd (ht : HeidelTime) (cwd tmpPath : String) : List String :=
  [ht.java, "-jar", absolutize cwd (pathJoin ht.heidel jarName), tmpPath,
   "-l", ht.lang, "-t", ht.doc_type, "-o", ht.output_type,
   "-c", ht.conf_heideltime, "-e", ht.encoding,
   "-dct", formatDCT ht.start_date]

/-- The full command list built in `parse`. -/
def buildCmd (ht : HeidelTime) (cwd tmpPath : String) : List String :=
  baseCmd ht cwd tmpPath ++ optionalFlags ht

/-- `str(subprocess.CalledProcessError)` (the generic message used when the
child produced no stderr); the list rendering approximates Python repr. -/
def calledProcessErrorStr (cmd : List String) (code : Int) : String :=
  "Command " ++ toString cmd ++ " returned non-zero exit status " ++
    toString code ++ "."

/-- `parse(doc)`: empty-text guard, temporary-file write (`tmpName` stands
for the unique name chosen by `NamedTemporaryFile`), command construction,
synchronous child run, and unconditional cleanup in `finally`.  Returns the
result, the final filesystem, and the list of child invocations made. -/
def parse (ht : HeidelTime) (cwd doc tmpName : String)
    (runner : List String → ProcResult) (fs : FS) :
    (Except HTError String) × FS × List (List String) :=
  if doc = "" then
    (.error (.validationError "No text provided to parse"), fs, [])
  else
    let fs1 := fsWrite fs tmpName doc
    let cmd := buildCmd ht cwd tmpName
    let r := runner cmd
    if r.exitCode = 0 then
      (.ok r.stdout, fsUnlink fs1 tmpName, [cmd])
    else
      let errMsg := if r.stderr ≠ "" then r.stderr
                    else calledProcessErrorStr cmd r.exitCode
      (.error (.executionError ("HeidelTime execution failed: " ++ errMsg)),
       fsUnlink fs1 tmpName, [cmd])

/-! Concrete instances used by counterexamples and witnesses. -/

/-- A minimal configuration supplying only the tool path. -/
def cfg₀ : ConfigMap := { heideltime_path := some "/tools/heideltime" }

/-- A filesystem in which that tool path exists. -/
def fs₀ : FS := [("/tools/heideltime", "")]

/-- A fixed current date for `datetime.now().date()`. -/
def today₀ : Date := ⟨2025, 10, 12⟩

/-- The instance state produced by initialising with `cfg₀` (all defaults:
doc type narratives, language french, output TIMEML, encoding UTF-8,
verbosity and interval tagging off, no locale, secondary tagger "no"). -/
def ht₀ : HeidelTime :=
  { heidel := "/tools/heideltime", java := "java", start_date := today₀,
    conf_heideltime := "/tools/heideltime/config.props",
    doc_type := "narratives", lang := "french", output_type := "TIMEML",
    encoding := "UTF-8", verbosity := false, interval_tagger := false,
    locale := none, pos_tagger := "no" }

deriving instance DecidableEq for Except

theorem init_cfg₀ : init cfg₀ fs₀ today₀ = .ok ht₀ := by decide

/-- Unlinking a path removes every entry for it from the filesystem. -/
theorem fsExists_fsUnlink (fs : FS) (p : String) :
    fsExists (fsUnlink fs p) p = false := by
  rw [fsExists, List.any_eq_false]
  intro x hx
  have hmem := List.mem_filter.mp hx
  have hne : x.1 ≠ p := by simpa using hmem.2
  simpa using hne

/-- Claim C1: for non-empty text, a zero child exit code makes `parse`
return the decoded stdout verbatim, and a nonzero exit code makes it fail
with an execution error whose message carries the decoded stderr, or the
generic `CalledProcessError` text when stderr is empty. -/
theorem parse_exit_code_contract (ht : HeidelTime) (cwd doc tmpName : String)
    (runner : List String → ProcResult) (fs : FS) (hdoc : doc ≠ "") :
    ((runner (buildCmd ht cwd tmpName)).exitCode = 0 →
      (parse ht cwd doc tmpName runner fs).1 =
        .ok (runner (buildCmd ht cwd tmpName)).stdout) ∧
    ((runner (buildCmd ht cwd tmpName)).exitCode ≠ 0 →
      (parse ht cwd doc tmpName runner fs).1 =
        .error (.executionError ("HeidelTime execution failed: " ++
          (if (runner (buildCmd ht cwd tmpName)).stderr ≠ ""
           then (runner (buildCmd ht cwd tmpName)).stderr
           else calledProcessErrorStr (buildCmd ht cwd tmpName)
                  (runner (buildCmd ht cwd tmpName)).exitCode)))) := by
  unfold parse
  constructor
  · intro h0
    simp [hdoc, h0]
  · intro hne
    simp [hdoc, hne]

theorem parse_exit_code_contract_witness :
    (parse ht₀ "/cwd" "hello" "/tmp/doc.tmp"
        (fun _ => ⟨0, "OUT", ""⟩) fs₀).1 = .ok "OUT" :=
  (parse_exit_code_contract ht₀ "/cwd" "hello" "/tmp/doc.tmp"
    (fun _ => ⟨0, "OUT", ""⟩) fs₀ (by decide)).1 rfl

/-- Claim C2: for non-empty text, the transient file no longer exists in the
final filesystem, on the success path and on the nonzero-exit path alike
(the `finally` block unlinks it unconditionally). -/
theorem parse_deletes_transient_file (ht : HeidelTime) (cwd doc tmpName : String)
    (runner : List String → ProcResult) (fs : FS) (hdoc : doc ≠ "") :
    fsExists (parse ht cwd doc tmpName runner fs).2.1 tmpName = false := by
  unfold parse
  by_cases h : (runner (buildCmd ht cwd tmpName)).exitCode = 0 <;>
    simp [hdoc, h, fsExists_fsUnlink]

theorem parse_deletes_transient_file_witness :
    fsExists (parse ht₀ "/cwd" "hello" "/tmp/doc.tmp"
        (fun _ => ⟨1, "", "tagger crashed"⟩) fs₀).2.1 "/tmp/doc.tmp" = false :=
  parse_deletes_transient_file ht₀ "/cwd" "hello" "/tmp/doc.tmp"
    (fun _ => ⟨1, "", "tagger crashed"⟩) fs₀ (by decide)

/-- Claim C3 counterexample: under the default configuration (only the tool
path supplied, so verbosity false, interval tagging false, no locale,
secondary tagger "no"), the command DOES contain the secondary-tagger flag:
the string "no" is truthy, so `-pos no` is appended. -/
theorem default_config_appends_pos_flag :
    init cfg₀ fs₀ today₀ = .ok ht₀ ∧
    (buildCmd ht₀ "/cwd" "/tmp/doc.tmp").contains "-pos" = true ∧
    optionalFlags ht₀ = ["-pos", "no"] := by decide

/-- Claim C3 (amended): with the default optional values (verbosity false,
interval tagging false, no locale, secondary tagger "no"), the verbosity,
interval-tagging and locale flags are absent, but the command is the fixed
head followed by exactly `-pos no`: the secondary-tagger flag is appended
whenever its value is a non-empty (truthy) string, not only when it differs
from the default. -/
theorem optional_flags_under_default_values (ht : HeidelTime) (cwd tmp : String)
    (hv : ht.verbosity = false) (hit : ht.interval_tagger = false)
    (hloc : ht.locale = none) (hpos : ht.pos_tagger = "no") :
    buildCmd ht cwd tmp = baseCmd ht cwd tmp ++ ["-pos", "no"] := by
  simp [buildCmd, optionalFlags, hv, hit, hloc, hpos]

theorem optional_flags_under_default_values_witness :
    buildCmd ht₀ "/cwd" "/tmp/doc.tmp" =
      baseCmd ht₀ "/cwd" "/tmp/doc.tmp" ++ ["-pos", "no"] :=
  optional_flags_under_default_values ht₀ "/cwd" "/tmp/doc.tmp" rfl rfl rfl rfl

/-- Claim C4 counterexample: the argument after `-jar` is not the configured
tool path itself but the tool path joined with the fixed standalone jar file
name. -/
theorem jar_argument_is_not_tool_path :
    (buildCmd ht₀ "/cwd" "/tmp/doc.tmp")[2]? =
      some "/tools/heideltime/de.unihd.dbs.heideltime.standalone.jar" ∧
    ¬ (buildCmd ht₀ "/cwd" "/tmp/doc.tmp")[2]? = some ht₀.heidel := by decide

/-- Claim C4 (amended): the invocation starts with the runtime path, `-jar`,
the configured tool path joined with `de.unihd.dbs.heideltime.standalone.jar`
(made absolute, posix form), the transient input-file path, and then the
pairs `-l`, `-t`, `-o`, `-c`, `-e`, `-dct` in exactly that order, before any
optional flags. -/
theorem cmd_argument_order (ht : HeidelTime) (cwd tmp : String) :
    (buildCmd ht cwd tmp).take 16 =
      [ht.java, "-jar", absolutize cwd (pathJoin ht.heidel jarName), tmp,
       "-l", ht.lang, "-t", ht.doc_type, "-o", ht.output_type,
       "-c", ht.conf_heideltime, "-e", ht.encoding,
       "-dct", formatDCT ht.start_date] := rfl

/-- Claim C5: `parse` on empty text fails with the no-text validation error,
leaves the filesystem untouched, and performs no child invocation. -/
theorem parse_empty_text_validation (ht : HeidelTime) (cwd tmpName : String)
    (runner : List String → ProcResult) (fs : FS) :
    parse ht cwd "" tmpName runner fs =
      (.error (.validationError "No text provided to parse"), fs, []) := rfl

/-- Claim C6: initialization fails with a configuration error when the tool
path field is absent, and also when it is present but does not exist on the
filesystem, whatever the remaining fields hold. -/
theorem init_tool_path_config_errors (cfg : ConfigMap) (fs : FS) (today : Date) :
    (cfg.heideltime_path = none →
      init cfg fs today = .error (.configError
        "Please specify the path to Heideltime.standalone.jar in the configuration")) ∧
    (∀ hp : String, cfg.heideltime_path = some hp → fsExists fs hp = false →
      init cfg fs today = .error (.configError
        ("HeidelTime jar file is not found at " ++ hp))) := by
  constructor
  · intro h
    unfold init
    rw [h]
  · intro hp h hfs
    unfold init
    rw [h]
    simp [hfs]

theorem init_tool_path_config_errors_witness :
    init {} [] today₀ = .error (.configError
      "Please specify the path to Heideltime.standalone.jar in the configuration") ∧
    init cfg₀ [] today₀ = .error (.configError
      ("HeidelTime jar file is not found at " ++ "/tools/heideltime")) :=
  ⟨(init_tool_path_config_errors {} [] today₀).1 rfl,
   (init_tool_path_config_errors cfg₀ [] today₀).2 "/tools/heideltime" rfl (by decide)⟩

/-- Claim C7: the two-format fallback parses `2025/03/16` and `25/03/16` to
the same calendar date 2025-03-16 (formatted `2025-03-16` for the `-dct`
argument) and rejects `2025-03-16` with a validation error naming the
accepted formats, both in `set_time` and in initialization. -/
theorem date_two_format_fallback :
    tryParseDate "2025/03/16" = some ⟨2025, 3, 16⟩ ∧
    tryParseDate "25/03/16" = some ⟨2025, 3, 16⟩ ∧
    tryParseDate "2025-03-16" = none ∧
    set_time ht₀ "2025/03/16" = ({ ht₀ with start_date := ⟨2025, 3, 16⟩ }, none) ∧
    set_time ht₀ "25/03/16" = ({ ht₀ with start_date := ⟨2025, 3, 16⟩ }, none) ∧
    set_time ht₀ "2025-03-16" = (ht₀, some (.validationError
      "doc_time must be in format YYYY/MM/DD or YY/MM/DD")) ∧
    (init { cfg₀ with start_date := some "2025/03/16" } fs₀ today₀).map
        (fun h => formatDCT h.start_date) = .ok "2025-03-16" ∧
    (init { cfg₀ with start_date := some "25/03/16" } fs₀ today₀).map
        (fun h => formatDCT h.start_date) = .ok "2025-03-16" ∧
    init { cfg₀ with start_date := some "2025-03-16" } fs₀ today₀ =
      .error (.validationError
        "start_date must be in format YYYY/MM/DD or YY/MM/DD") := by decide

/-- Claim C8: for any value not case-insensitively in the fixed 15-entry
language set, `set_lang` reports a validation error and leaves the stored
language (indeed the whole instance state) unchanged. -/
theorem set_lang_invalid_no_mutation (ht : HeidelTime) (lang : String)
    (h : AVAILABLE_LANGUAGES.contains (pyLower lang) = false) :
    AVAILABLE_LANGUAGES.length = 15 ∧
    (set_lang ht lang).1 = ht ∧
    (∃ m, (set_lang ht lang).2 = some (.validationError m)) := by
  have h' : pyLower lang ∉ AVAILABLE_LANGUAGES := by simpa using h
  refine ⟨by decide, ?_, ?_⟩
  · simp [set_lang, h']
  · exact ⟨"Languague: " ++ lang ++ " is not supported in heideltime" ++
      "Please chose one of the supported languagues", by simp [set_lang, h']⟩

theorem set_lang_invalid_no_mutation_witness :
    AVAILABLE_LANGUAGES.length = 15 ∧
    (set_lang ht₀ "klingon").1 = ht₀ ∧
    (∃ m, (set_lang ht₀ "klingon").2 = some (.validationError m)) :=
  set_lang_invalid_no_mutation ht₀ "klingon" (by decide)

/-- Claim C9 counterexample: with `isAbsolute = false` and the absolute
argument `/abs/alt.props`, the stored settings path is the argument alone
(pathlib join discards the left operand before an absolute right operand),
not the tool path followed by the argument. -/
theorem set_config_absolute_arg_cex :
    (set_config ht₀ "/abs/alt.props" false).conf_heideltime = "/abs/alt.props" ∧
    ¬ (set_config ht₀ "/abs/alt.props" false).conf_heideltime =
        ht₀.heidel ++ "/" ++ "/abs/alt.props" := by decide

/-- Claim C9 (amended): with `isAbsolute = true` the stored settings path is
exactly the given path; with `isAbsolute = false` it is
`<tool path>/<given path>` when the given path is relative and non-empty,
but a given path that is itself absolute replaces the tool path entirely
and is stored alone. -/
theorem set_config_resolution (ht : HeidelTime) (p q : String)
    (hp : strStartsWith p "/" = false) (hp2 : p ≠ "")
    (hh : strEndsWith ht.heidel "/" = false)
    (hq : strStartsWith q "/" = true) :
    (set_config ht p false).conf_heideltime = ht.heidel ++ "/" ++ p ∧
    (set_config ht p true).conf_heideltime = p ∧
    (set_config ht q false).conf_heideltime = q ∧
    (set_config ht q true).conf_heideltime = q := by
  refine ⟨?_, rfl, ?_, rfl⟩
  · simp [set_config, pathJoin, hp, hp2, hh]
  · simp [set_config, pathJoin, hq]

theorem set_config_resolution_witness :
    (set_config ht₀ "alt.props" false).conf_heideltime =
      ht₀.heidel ++ "/" ++ "alt.props" ∧
    (set_config ht₀ "alt.props" true).conf_heideltime = "alt.props" ∧
    (set_config ht₀ "/abs/b.props" false).conf_heideltime = "/abs/b.props" ∧
    (set_config ht₀ "/abs/b.props" true).conf_heideltime = "/abs/b.props" :=
  set_config_resolution ht₀ "alt.props" "/abs/b.props"
    (by decide) (by decide) (by decide) (by decide)

/-- Claim C10: a successful `set_lang` stores the lowercased input (so the
`-l` argument, position 5 of the command, is lowercase), while successful
`set_type` and `out_type` store the input with its original case even though
membership was checked case-insensitively, and those stored values are what
appear at positions 7 and 9 of the command. -/
theorem case_preservation_contract (ht : HeidelTime) (l t o cwd tmp : String)
    (hl : AVAILABLE_LANGUAGES.contains (pyLower l) = true)
    (hd : AVAILABLE_DOCUMENT_TYPES.contains (pyLower t) = true)
    (ho : AVAILABLE_OUTPUT_TYPES.contains (pyLower o) = true) :
    (set_lang ht l).1.lang = pyLower l ∧ (set_lang ht l).2 = none ∧
    (set_type ht t).1.doc_type = t ∧ (set_type ht t).2 = none ∧
    (out_type ht o).1.output_type = o ∧ (out_type ht o).2 = none ∧
    (buildCmd (set_lang ht l).1 cwd tmp)[5]? = some (pyLower l) ∧
    (buildCmd (set_type ht t).1 cwd tmp)[7]? = some t ∧
    (buildCmd (out_type ht o).1 cwd tmp)[9]? = some o := by
  have hl' : pyLower l ∈ AVAILABLE_LANGUAGES := by simpa using hl
  have hd' : pyLower t ∈ AVAILABLE_DOCUMENT_TYPES := by simpa using hd
  have ho' : pyLower o ∈ AVAILABLE_OUTPUT_TYPES := by simpa using ho
  have hsl : set_lang ht l = ({ ht with lang := pyLower l }, none) := by
    simp [set_lang, hl']
  have hst : set_type ht t = ({ ht with doc_type := t }, none) := by
    simp [set_type, hd']
  have hot : out_type ht o = ({ ht with output_type := o }, none) := by
    simp [out_type, ho']
  rw [hsl, hst, hot]
  exact ⟨rfl, rfl, rfl, rfl, rfl, rfl, rfl, rfl, rfl⟩

theorem case_preservation_contract_witness :
    (set_lang ht₀ "FRENCH").1.lang = pyLower "FRENCH" ∧
    (set_lang ht₀ "FRENCH").2 = none ∧
    (set_type ht₀ "News").1.doc_type = "News" ∧
    (set_type ht₀ "News").2 = none ∧
    (out_type ht₀ "XMI").1.output_type = "XMI" ∧
    (out_type ht₀ "XMI").2 = none ∧
    (buildCmd (set_lang ht₀ "FRENCH").1 "/cwd" "/tmp/doc.tmp")[5]? =
      some (pyLower "FRENCH") ∧
    (buildCmd (set_type ht₀ "News").1 "/cwd" "/tmp/doc.tmp")[7]? = some "News" ∧
    (buildCmd (out_type ht₀ "XMI").1 "/cwd" "/tmp/doc.tmp")[9]? = some "XMI" :=
  case_preservation_contract ht₀ "FRENCH" "News" "XMI" "/cwd" "/tmp/doc.tmp"
    (by decide) (by decide) (by decide)

end PyHeideltime
